import Mathlib

set_option maxRecDepth 8192

/-!
Verification of the deployment-orchestration backend of the onix installer.

The development shallowly embeds the orchestration core:

* `_get_services_to_deploy` and `should_deploy_subscriber`
  (backend/services/deployment_manager.py, backend/config/app_config_generator.py);
* `get_deployment_environment_variables` (backend/config/app_config_generator.py);
* `stream_subprocess_output` and the `ANSI_ESCAPE_PATTERN` substitution
  (backend/core/utils.py, backend/core/constants.py);
* `run_infra_deployment` and `run_app_deployment`
  (backend/services/deployment_manager.py);
* `perform_single_health_check` and `run_websocket_health_check`
  (backend/services/health_checks.py).

Python dictionaries are embedded as association lists in insertion order
(unique keys); Python strings as Lean `String`; the event loop clock, the
HTTP probe outcomes, the subprocess exit codes and the filesystem results
are oracle parameters.  I/O effects (websocket sends) are embedded as the
list of messages produced, in order.
-/

/-! ## Python string ordering

Python compares strings lexicographically by code point.  `String`'s builtin
order does not reduce in the kernel, so we embed the comparison directly. -/

/-- Lexicographic (code-point) comparison of character lists: the order Python
uses to compare strings. -/
def strLeAux : List Char → List Char → Bool
  | [], _ => true
  | _ :: _, [] => false
  | a :: as, b :: bs =>
    if a.toNat < b.toNat then true
    else if b.toNat < a.toNat then false
    else strLeAux as bs

/-- Python string comparison `a <= b`. -/
def strLe (a b : String) : Bool := strLeAux a.toList b.toList

theorem strLeAux_total : ∀ x y : List Char, strLeAux x y = true ∨ strLeAux y x = true
  | [], _ => Or.inl rfl
  | _ :: _, [] => Or.inr rfl
  | a :: as, b :: bs => by
    simp only [strLeAux]
    rcases Nat.lt_trichotomy a.toNat b.toNat with h | h | h
    · left; simp [h]
    · have h2 : ¬ a.toNat < b.toNat := by omega
      have h3 : ¬ b.toNat < a.toNat := by omega
      rcases strLeAux_total as bs with h4 | h4
      · left; simp [h2, h3, h4]
      · right; simp [h2, h3, h4]
    · right; simp [h]

theorem strLeAux_trans : ∀ x y z : List Char,
    strLeAux x y = true → strLeAux y z = true → strLeAux x z = true
  | [], _, _, _, _ => rfl
  | _ :: _, [], _, h1, _ => by simp [strLeAux] at h1
  | _ :: _, _ :: _, [], _, h2 => by simp [strLeAux] at h2
  | a :: as, b :: bs, c :: cs, h1, h2 => by
    simp only [strLeAux] at h1 h2 ⊢
    by_cases hab : a.toNat < b.toNat
    · by_cases hbc : b.toNat < c.toNat
      · have : a.toNat < c.toNat := by omega
        simp [this]
      · have hcb : ¬ c.toNat < b.toNat := by
          intro hcb
          simp [hab, hbc, hcb] at h2
        have : a.toNat < c.toNat := by omega
        simp [this]
    · have hba : ¬ b.toNat < a.toNat := by
        intro hba
        simp [hab, hba] at h1
      have hab2 : a.toNat = b.toNat := by omega
      by_cases hbc : b.toNat < c.toNat
      · have : a.toNat < c.toNat := by omega
        simp [this]
      · have hcb : ¬ c.toNat < b.toNat := by
          intro hcb
          simp [hbc, hcb] at h2
        have h1t : strLeAux as bs = true := by simpa [hab, hba] using h1
        have h2t : strLeAux bs cs = true := by simpa [hbc, hcb] using h2
        have hac : ¬ a.toNat < c.toNat := by omega
        have hca : ¬ c.toNat < a.toNat := by omega
        simp [hac, hca, strLeAux_trans as bs cs h1t h2t]

instance : IsTotal String (fun a b => strLe a b = true) :=
  ⟨fun a b => strLeAux_total a.toList b.toList⟩

instance : IsTrans String (fun a b => strLe a b = true) :=
  ⟨fun _ _ _ h1 h2 => strLeAux_trans _ _ _ h1 h2⟩

/-- Python's builtin `sorted` on a list of strings (a stable sort by the
code-point order; insertion sort is stable and total here). -/
def pySorted (l : List String) : List String :=
  List.insertionSort (fun a b => strLe a b = true) l

theorem pySorted_sorted (l : List String) :
    List.Sorted (fun a b => strLe a b = true) (pySorted l) :=
  List.sorted_insertionSort _ l

/-! ## Python dict lookups -/

/-- `components.get(key, False)` on a Python dict embedded as an association
list in insertion order. -/
def getComp (components : List (String × Bool)) (key : String) : Bool :=
  (components.lookup key).getD false

/-- `List.lookup` is unchanged by permuting an association list whose keys are
distinct (Python dict key-order independence). -/
theorem lookup_perm_eq {α : Type} [DecidableEq α] {β : Type}
    {l1 l2 : List (α × β)} (hp : l1.Perm l2)
    (hn : (l1.map Prod.fst).Nodup) (k : α) : l1.lookup k = l2.lookup k := by
  induction hp with
  | nil => rfl
  | cons x p ih =>
    obtain ⟨x1, x2⟩ := x
    have hn2 : (List.map Prod.fst _).Nodup := (List.nodup_cons.mp hn).2
    by_cases hk : k = x1
    · simp [List.lookup, hk]
    · have : (k == x1) = false := by simp [hk]
      simp [List.lookup, this, ih hn2]
  | swap x y l =>
    obtain ⟨x1, x2⟩ := x
    obtain ⟨y1, y2⟩ := y
    have hxy : y1 ≠ x1 := by
      have := (List.nodup_cons.mp hn).1
      simp only [List.map_cons, List.mem_cons] at this
      tauto
    have hxyb : (x1 == y1) = false := by
      simp only [beq_eq_false_iff_ne, ne_eq]
      exact fun h => hxy h.symm
    have hyxb : (y1 == x1) = false := by
      simp only [beq_eq_false_iff_ne, ne_eq]
      exact hxy
    by_cases hk1 : k = x1
    · subst hk1
      simp [List.lookup, hxyb]
    · have hk1f : (k == x1) = false := by simp [hk1]
      by_cases hk2 : k = y1
      · subst hk2
        simp [List.lookup, hyxb, hk1f]
      · have hk2f : (k == y1) = false := by simp [hk2]
        simp [List.lookup, hk1f, hk2f]
  | trans p1 _ ih1 ih2 =>
    have hn2 : (List.map Prod.fst _).Nodup :=
      ((p1.map Prod.fst).nodup_iff).mp hn
    exact (ih1 hn).trans (ih2 hn2)

/-! ## Component Selector

`should_deploy_subscriber` and `_should_deploy_adapter` from
backend/config/app_config_generator.py and `_get_services_to_deploy` from
backend/services/deployment_manager.py. -/

/-- `components.get("bap") or components.get("bpp")`. -/
def _should_deploy_adapter (components : List (String × Bool)) : Bool :=
  getComp components "bap" || getComp components "bpp"

/-- `components.get("bap") or components.get("bpp") or components.get("gateway")`. -/
def should_deploy_subscriber (components : List (String × Bool)) : Bool :=
  getComp components "bap" || getComp components "bpp" || getComp components "gateway"

/-- The `services_to_deploy` set built by `_get_services_to_deploy`, listed in
the source's insertion order (the members are pairwise distinct; the set is
only consumed through `sorted`, so the enumeration order is irrelevant). -/
def servicesToDeploySet (components : List (String × Bool)) : List String :=
  (if getComp components "bap" || getComp components "bpp" then ["adapter"] else []) ++
  (if getComp components "gateway" then ["gateway"] else []) ++
  (if getComp components "registry" then ["registry", "registry_admin"] else []) ++
  (if should_deploy_subscriber components then ["subscriber"] else [])

/-- `_get_services_to_deploy`: `sorted(list(services_to_deploy))`. -/
def _get_services_to_deploy (components : List (String × Bool)) : List String :=
  pySorted (servicesToDeploySet components)

/-- C1: for every component-enablement map (missing keys are `false`), the
derived service list of `_get_services_to_deploy` is total, independent of key
order (for the distinct keys of a Python dict), lexicographically sorted, and
contains `adapter` iff bap or bpp, `subscriber` iff bap, bpp or gateway,
`gateway` iff gateway, and both `registry` and `registry_admin` iff registry.
Totality is inherent in the embedding: the function is defined for every
association list. -/
theorem services_to_deploy_spec (c : List (String × Bool)) :
    ("adapter" ∈ _get_services_to_deploy c ↔
      (getComp c "bap" || getComp c "bpp") = true) ∧
    ("subscriber" ∈ _get_services_to_deploy c ↔
      (getComp c "bap" || getComp c "bpp" || getComp c "gateway") = true) ∧
    ("gateway" ∈ _get_services_to_deploy c ↔ getComp c "gateway" = true) ∧
    (("registry" ∈ _get_services_to_deploy c ∧
      "registry_admin" ∈ _get_services_to_deploy c) ↔ getComp c "registry" = true) ∧
    List.Sorted (fun a b => strLe a b = true) (_get_services_to_deploy c) ∧
    (∀ c2, c.Perm c2 → (c.map Prod.fst).Nodup →
      _get_services_to_deploy c = _get_services_to_deploy c2) := by
  refine ⟨?_, ?_, ?_, ?_, ?_, ?_⟩
  · cases hb : getComp c "bap" <;> cases hp : getComp c "bpp" <;>
      cases hg : getComp c "gateway" <;> cases hr : getComp c "registry" <;>
      simp [_get_services_to_deploy, servicesToDeploySet, should_deploy_subscriber,
        hb, hp, hg, hr, pySorted] <;> decide
  · cases hb : getComp c "bap" <;> cases hp : getComp c "bpp" <;>
      cases hg : getComp c "gateway" <;> cases hr : getComp c "registry" <;>
      simp [_get_services_to_deploy, servicesToDeploySet, should_deploy_subscriber,
        hb, hp, hg, hr, pySorted] <;> decide
  · cases hb : getComp c "bap" <;> cases hp : getComp c "bpp" <;>
      cases hg : getComp c "gateway" <;> cases hr : getComp c "registry" <;>
      simp [_get_services_to_deploy, servicesToDeploySet, should_deploy_subscriber,
        hb, hp, hg, hr, pySorted] <;> decide
  · cases hb : getComp c "bap" <;> cases hp : getComp c "bpp" <;>
      cases hg : getComp c "gateway" <;> cases hr : getComp c "registry" <;>
      simp [_get_services_to_deploy, servicesToDeploySet, should_deploy_subscriber,
        hb, hp, hg, hr, pySorted] <;> decide
  · exact pySorted_sorted _
  · intro c2 hperm hnodup
    have h : ∀ k, c.lookup k = c2.lookup k := fun k => lookup_perm_eq hperm hnodup k
    simp [_get_services_to_deploy, servicesToDeploySet, should_deploy_subscriber,
      getComp, h]

/-- C1 witness: the specification instantiated on the concrete map
`{bap: true, registry: true}` and its key-order permutation. -/
theorem services_to_deploy_spec_witness :
    _get_services_to_deploy [("bap", true), ("registry", true)] =
      _get_services_to_deploy [("registry", true), ("bap", true)] ∧
    ("adapter" ∈ _get_services_to_deploy [("bap", true), ("registry", true)] ↔
      (getComp [("bap", true), ("registry", true)] "bap" ||
       getComp [("bap", true), ("registry", true)] "bpp") = true) :=
  ⟨(services_to_deploy_spec [("bap", true), ("registry", true)]).2.2.2.2.2
      [("registry", true), ("bap", true)] (by decide) (by decide),
   (services_to_deploy_spec [("bap", true), ("registry", true)]).1⟩

/-! ## Subprocess Streamer

`stream_subprocess_output` from backend/core/utils.py and the regular
expression `ANSI_ESCAPE_PATTERN` from backend/core/constants.py, which is
ESC followed by either the single-character class U+0040..U+005A, U+005C..U+005F,
or by a bracket, a run of U+0030..U+003F, a run of U+0020..U+002F and a final
character in U+0040..U+007E.  Lines are embedded after byte decoding:
`line.decode(errors="replace")` is total (invalid sequences become U+FFFD),
so the embedding's inputs are the decoded text lines, a trailing newline
included, with the empty string standing for end-of-stream (`if not line:
break`). -/

/-- Python `str.strip()` whitespace class (ASCII part). -/
def isPySpace (c : Char) : Bool :=
  c = ' ' || c = '\t' || c = '\n' || c = '\r' || c = '\x0b' || c = '\x0c'

/-- Python `str.strip()`: remove leading and trailing whitespace. -/
def pyStrip (l : List Char) : List Char :=
  ((l.dropWhile isPySpace).reverse.dropWhile isPySpace).reverse

/-- Trailing-whitespace strip only (what the spec sentence describes). -/
def pyRStrip (l : List Char) : List Char :=
  (l.reverse.dropWhile isPySpace).reverse

/-- First alternative of `ANSI_ESCAPE_PATTERN` after the ESC: the class
`[@-Z\\-_]`, i.e. U+0040..U+005A or U+005C..U+005F. -/
def isEscSingle (c : Char) : Bool :=
  (0x40 ≤ c.toNat && c.toNat ≤ 0x5A) || (0x5C ≤ c.toNat && c.toNat ≤ 0x5F)

/-- CSI parameter class `[0-?]`: U+0030..U+003F. -/
def isCsiParam (c : Char) : Bool := 0x30 ≤ c.toNat && c.toNat ≤ 0x3F

/-- CSI intermediate class (space through slash): U+0020..U+002F. -/
def isCsiInter (c : Char) : Bool := 0x20 ≤ c.toNat && c.toNat ≤ 0x2F

/-- CSI final class `[@-~]`: U+0040..U+007E. -/
def isCsiFinal (c : Char) : Bool := 0x40 ≤ c.toNat && c.toNat ≤ 0x7E

/-- Match of the part of `ANSI_ESCAPE_PATTERN` after the ESC character,
returning the remainder of the input after the match.  The three CSI
character classes are pairwise disjoint, so the greedy scan is exactly the
regex's backtracking behavior. -/
def ansiMatch : List Char → Option (List Char)
  | [] => none
  | c :: rest =>
    if isEscSingle c then some rest
    else if c = '[' then
      match (rest.dropWhile isCsiParam).dropWhile isCsiInter with
      | f :: r3 => if isCsiFinal f then some r3 else none
      | [] => none
    else none

/-- Fuel-driven left-to-right scan removing every non-overlapping match of
the pattern and keeping every other character.  Every step consumes at least
one input character, so fuel equal to the input length always suffices. -/
def ansiSubFuel : Nat → List Char → List Char
  | 0, l => l
  | _ + 1, [] => []
  | fuel + 1, c :: rest =>
    if c = '\x1b' then
      match ansiMatch rest with
      | some rest2 => ansiSubFuel fuel rest2
      | none => c :: ansiSubFuel fuel rest
    else c :: ansiSubFuel fuel rest

/-- `ANSI_ESCAPE_PATTERN.sub("", line)`. -/
def ansiSub (l : List Char) : List Char := ansiSubFuel l.length l

/-- The per-line cleaning of `stream_subprocess_output`:
`decoded = line.decode(errors="replace").strip()` followed by
`ANSI_ESCAPE_PATTERN.sub("", decoded)`. -/
def cleanLine (s : String) : String := String.mk (ansiSub (pyStrip s.toList))

/-- Modelled from the spec: the cleaning as the spec sentence words it
("stripped of trailing whitespace, and stripped of ANSI escape sequences"),
for comparison with `cleanLine`. -/
def cleanLineClaim (s : String) : String := String.mk (ansiSub (pyRStrip s.toList))

/-- A structured log message `{type: "log", action: streamTag, message: line}`. -/
structure LogMessage where
  type : String
  action : String
  message : String
deriving DecidableEq

/-- The readline loop of `stream_subprocess_output`: one iteration per decoded
line, stopping at the empty read (`if not line: break`); a line whose cleaned
form is empty is not forwarded. -/
def streamLines : List String → String → List LogMessage
  | [], _ => []
  | line :: rest, stream_name =>
    if line = "" then []
    else
      let cleaned := cleanLine line
      if cleaned = "" then streamLines rest stream_name
      else ⟨"log", stream_name, cleaned⟩ :: streamLines rest stream_name

/-- `stream_subprocess_output(process, websocket, stream_name)`: nothing at all
is forwarded when the process has no stdout. -/
def stream_subprocess_output (stdout : Option (List String)) (stream_name : String) :
    List LogMessage :=
  match stdout with
  | none => []
  | some lines => streamLines lines stream_name

/-- C3 counterexample: the claim describes the per-line cleaning as stripping
trailing whitespace only, but `stream_subprocess_output` calls `str.strip()`,
which also strips leading whitespace: on the raw line `" Hello"` the code
forwards `"Hello"`, while the claimed pipeline yields `" Hello"`. -/
theorem stream_strip_counterexample :
    streamLines [" Hello"] "app_deploy_log" =
      [⟨"log", "app_deploy_log", "Hello"⟩] ∧
    cleanLineClaim " Hello" = " Hello" ∧
    cleanLine " Hello" ≠ cleanLineClaim " Hello" := by decide

/-- C3 amended: `stream_subprocess_output` forwards one message per raw line in
production order, each line cleaned by stripping leading and trailing
whitespace and then ANSI escape sequences; lines empty after cleaning are
suppressed; on the spec's four-line example exactly two messages are
forwarded, in order Hello then Error. -/
theorem stream_forwarding_amended (lines : List String) (stream_name : String) :
    streamLines lines stream_name =
      ((lines.takeWhile (fun l => !(l == ""))).map cleanLine).filterMap
        (fun c => if c = "" then none else some ⟨"log", stream_name, c⟩) ∧
    streamLines ["Hello\n", "\x1b[31mError\x1b[0m\n", "\x1b[32m\x1b[0m\n", ""]
        "app_deploy_log" =
      [⟨"log", "app_deploy_log", "Hello"⟩, ⟨"log", "app_deploy_log", "Error"⟩] := by
  constructor
  · induction lines with
    | nil => rfl
    | cons l rest ih =>
      by_cases h : l = ""
      · subst h; rfl
      · have hb : (l == "") = false := by simp [h]
        by_cases h2 : cleanLine l = ""
        · simp [streamLines, h, h2, hb, ih]
        · simp [streamLines, h, h2, hb, ih]
  · decide

/-! ## Application deployment request and environment variables

`AdapterConfig`/`AppDeploymentRequest` from backend/core/models.py (only the
fields the orchestration core reads; the registry/gateway/domain config blocks
feed the template-rendering context, which is outside the embedded core), and
`get_deployment_environment_variables` from
backend/config/app_config_generator.py. -/

/-- `AdapterConfig.enable_schema_validation` (`Optional[bool] = False`;
`None` and `False` are both falsy in the `if`, so a `Bool` field suffices). -/
structure AdapterConfig where
  enable_schema_validation : Bool
deriving DecidableEq

/-- The fields of `AppDeploymentRequest` read by the orchestration core. -/
structure AppDeploymentRequest where
  components : List (String × Bool)
  domain_names : List (String × String)
  image_urls : List (String × String)
  adapter_config : Option AdapterConfig
deriving DecidableEq

/-- ASCII model of Python `key.upper().replace("-", "_")`. -/
def pyUpperReplace (s : String) : String :=
  String.mk (s.toList.map (fun c =>
    let u := if 97 ≤ c.toNat ∧ c.toNat ≤ 122 then Char.ofNat (c.toNat - 32) else c
    if u = '-' then '_' else u))

/-- Python dict assignment `env[k] = v`: replace the value in place when the
key exists, append otherwise. -/
def dinsert (m : List (String × String)) (k v : String) : List (String × String) :=
  if (m.lookup k).isSome then
    m.map (fun kv => if kv.1 = k then (k, v) else kv)
  else m ++ [(k, v)]

/-- `get_deployment_environment_variables(app_deployment_request,
services_to_deploy)`: `DEPLOY_SERVICES`, one `<KEY>_DOMAIN` per domain-name
entry, one `<KEY>_IMAGE_URL` per image-url entry, then
`ENABLE_SCHEMA_VALIDATION`. -/
def get_deployment_environment_variables (req : AppDeploymentRequest)
    (services_to_deploy : List String) : List (String × String) :=
  let env0 := dinsert [] "DEPLOY_SERVICES"
    (String.intercalate "," (pySorted services_to_deploy))
  let env1 := req.domain_names.foldl
    (fun acc kv => dinsert acc (pyUpperReplace kv.1 ++ "_DOMAIN") kv.2) env0
  let env2 := req.image_urls.foldl
    (fun acc kv => dinsert acc (pyUpperReplace kv.1 ++ "_IMAGE_URL") kv.2) env1
  dinsert env2 "ENABLE_SCHEMA_VALIDATION"
    (if (match req.adapter_config with
         | some ac => ac.enable_schema_validation
         | none => false) then "true" else "false")

theorem lookup_eq_none_of_not_mem {m : List (String × String)} {k : String}
    (h : k ∉ m.map Prod.fst) : m.lookup k = none := by
  induction m with
  | nil => rfl
  | cons x t ih =>
    obtain ⟨x1, x2⟩ := x
    simp only [List.map_cons, List.mem_cons] at h
    push_neg at h
    have hb : (k == x1) = false := by simp [h.1]
    simp only [List.lookup, hb]
    exact ih h.2

theorem dinsert_not_mem {m : List (String × String)} {k : String} (v : String)
    (h : k ∉ m.map Prod.fst) : dinsert m k v = m ++ [(k, v)] := by
  simp [dinsert, lookup_eq_none_of_not_mem h]

theorem foldl_dinsert_append :
    ∀ (pairs : List (String × String)) (acc : List (String × String)),
      (pairs.map Prod.fst).Nodup →
      (∀ p ∈ pairs, p.1 ∉ acc.map Prod.fst) →
      pairs.foldl (fun a kv => dinsert a kv.1 kv.2) acc = acc ++ pairs
  | [], acc, _, _ => by simp
  | p :: rest, acc, hnodup, hdisj => by
    have h1 : p.1 ∉ acc.map Prod.fst := hdisj p (by simp)
    have hp : p.1 ∉ rest.map Prod.fst ∧ (rest.map Prod.fst).Nodup := by
      rw [List.map_cons, List.nodup_cons] at hnodup
      exact hnodup
    have step : dinsert acc p.1 p.2 = acc ++ [p] := by
      simpa using dinsert_not_mem p.2 h1
    have hrest : rest.foldl (fun a kv => dinsert a kv.1 kv.2) (acc ++ [p]) =
        (acc ++ [p]) ++ rest := by
      refine foldl_dinsert_append rest (acc ++ [p]) hp.2 ?_
      intro q hq
      simp only [List.map_append, List.mem_append, List.map_cons, List.map_nil,
        List.mem_singleton]
      push_neg
      refine ⟨hdisj q (List.mem_cons_of_mem _ hq), ?_⟩
      intro hcontra
      exact hp.1 (hcontra ▸ List.mem_map_of_mem Prod.fst hq)
    rw [List.foldl_cons, step, hrest]
    simp

/-- If a string is not a suffix of another (and not longer than it), then no
extensions of the two by prefixes can be equal. -/
theorem append_suffix_ne {x y s t : String}
    (hlen : s.data.length ≤ t.data.length)
    (hsuf : ¬ s.data <:+ t.data) : x ++ s ≠ y ++ t := by
  intro h
  apply hsuf
  have hd : x.data ++ s.data = y.data ++ t.data := by
    simpa [String.data_append] using congrArg String.data h
  have h1 : s.data <:+ y.data ++ t.data := ⟨x.data, hd⟩
  have h2 := List.suffix_iff_eq_drop.mp h1
  have hN : (y.data ++ t.data).length - s.data.length =
      y.data.length + (t.data.length - s.data.length) := by
    simp only [List.length_append]
    omega
  rw [hN, List.drop_append] at h2
  rw [h2]
  exact List.drop_suffix _ _

/-- If a string is not a suffix of another, prefixing the first cannot give
the second. -/
theorem append_ne_of_not_suffix {x s t : String}
    (hsuf : ¬ s.data <:+ t.data) : x ++ s ≠ t := by
  intro h
  apply hsuf
  have hd : x.data ++ s.data = t.data := by
    simpa [String.data_append] using congrArg String.data h
  exact ⟨x.data, hd⟩

theorem domain_var_ne_deploy (k : String) :
    pyUpperReplace k ++ "_DOMAIN" ≠ "DEPLOY_SERVICES" :=
  append_ne_of_not_suffix (by decide)

theorem domain_var_ne_schema (k : String) :
    pyUpperReplace k ++ "_DOMAIN" ≠ "ENABLE_SCHEMA_VALIDATION" :=
  append_ne_of_not_suffix (by decide)

theorem image_var_ne_deploy (k : String) :
    pyUpperReplace k ++ "_IMAGE_URL" ≠ "DEPLOY_SERVICES" :=
  append_ne_of_not_suffix (by decide)

theorem image_var_ne_schema (k : String) :
    pyUpperReplace k ++ "_IMAGE_URL" ≠ "ENABLE_SCHEMA_VALIDATION" :=
  append_ne_of_not_suffix (by decide)

theorem image_var_ne_domain_var (k k2 : String) :
    pyUpperReplace k ++ "_IMAGE_URL" ≠ pyUpperReplace k2 ++ "_DOMAIN" :=
  fun h => append_suffix_ne (x := pyUpperReplace k2) (by decide) (by decide) h.symm

theorem foldl_dinsert_keyed (f : String → String) :
    ∀ (pairs acc : List (String × String)),
      (pairs.map (fun kv => f kv.1)).Nodup →
      (∀ p ∈ pairs, f p.1 ∉ acc.map Prod.fst) →
      pairs.foldl (fun a kv => dinsert a (f kv.1) kv.2) acc =
        acc ++ pairs.map (fun kv => (f kv.1, kv.2)) := by
  intro pairs
  induction pairs with
  | nil => intro acc _ _; simp
  | cons p rest ih =>
    intro acc hnodup hdisj
    have h1 : f p.1 ∉ acc.map Prod.fst := hdisj p (by simp)
    rw [List.map_cons, List.nodup_cons] at hnodup
    have step : dinsert acc (f p.1) p.2 = acc ++ [(f p.1, p.2)] :=
      dinsert_not_mem p.2 h1
    have hdisj2 : ∀ q ∈ rest, f q.1 ∉ (acc ++ [(f p.1, p.2)]).map Prod.fst := by
      intro q hq
      simp only [List.map_append, List.mem_append, List.map_cons, List.map_nil,
        List.mem_singleton]
      push_neg
      refine ⟨hdisj q (List.mem_cons_of_mem _ hq), ?_⟩
      intro hcontra
      apply hnodup.1
      rw [← hcontra]
      exact List.mem_map_of_mem (fun kv => f kv.1) hq
    rw [List.foldl_cons, step, ih (acc ++ [(f p.1, p.2)]) hnodup.2 hdisj2]
    simp

/-- C6 counterexample: a request whose two distinct domain-name keys collide
after upper-casing and hyphen replacement.  Python dict assignment makes the
second entry overwrite the first, so the result has a single `A_B_DOMAIN`
variable (holding `"y"`), not one variable per domain-name entry: the value
`"x"` of the first entry appears nowhere in the result. -/
theorem env_vars_collision_counterexample :
    get_deployment_environment_variables ⟨[], [("a-b", "x"), ("a_b", "y")], [], none⟩
        ["adapter"] =
      [("DEPLOY_SERVICES", "adapter"), ("A_B_DOMAIN", "y"),
       ("ENABLE_SCHEMA_VALIDATION", "false")] := by decide

/-- C6 amended: when the normalized domain-name keys are pairwise distinct and
likewise the normalized image-url keys (later entries overwrite earlier ones
on a collision, which the claim's per-entry wording does not cover), the
result is exactly `DEPLOY_SERVICES` (the comma-joined sorted service list),
one `<KEY>_DOMAIN` variable per domain-name entry, one `<KEY>_IMAGE_URL`
variable per image-url entry, and `ENABLE_SCHEMA_VALIDATION`, which is the
literal string `"false"` whenever the adapter configuration is absent. -/
theorem env_vars_amended (req : AppDeploymentRequest) (services_to_deploy : List String)
    (hd : (req.domain_names.map (fun kv => pyUpperReplace kv.1 ++ "_DOMAIN")).Nodup)
    (hi : (req.image_urls.map (fun kv => pyUpperReplace kv.1 ++ "_IMAGE_URL")).Nodup) :
    get_deployment_environment_variables req services_to_deploy =
      [("DEPLOY_SERVICES", String.intercalate "," (pySorted services_to_deploy))] ++
      req.domain_names.map (fun kv => (pyUpperReplace kv.1 ++ "_DOMAIN", kv.2)) ++
      req.image_urls.map (fun kv => (pyUpperReplace kv.1 ++ "_IMAGE_URL", kv.2)) ++
      [("ENABLE_SCHEMA_VALIDATION",
        if (match req.adapter_config with
            | some ac => ac.enable_schema_validation
            | none => false) then "true" else "false")] ∧
    (req.adapter_config = none →
      get_deployment_environment_variables req services_to_deploy =
        [("DEPLOY_SERVICES", String.intercalate "," (pySorted services_to_deploy))] ++
        req.domain_names.map (fun kv => (pyUpperReplace kv.1 ++ "_DOMAIN", kv.2)) ++
        req.image_urls.map (fun kv => (pyUpperReplace kv.1 ++ "_IMAGE_URL", kv.2)) ++
        [("ENABLE_SCHEMA_VALIDATION", "false")]) := by
  have hjs : dinsert [] "DEPLOY_SERVICES"
      (String.intercalate "," (pySorted services_to_deploy)) =
      [("DEPLOY_SERVICES", String.intercalate "," (pySorted services_to_deploy))] := rfl
  have e1 : req.domain_names.foldl
      (fun acc kv => dinsert acc (pyUpperReplace kv.1 ++ "_DOMAIN") kv.2)
      [("DEPLOY_SERVICES", String.intercalate "," (pySorted services_to_deploy))] =
      [("DEPLOY_SERVICES", String.intercalate "," (pySorted services_to_deploy))] ++
      req.domain_names.map (fun kv => (pyUpperReplace kv.1 ++ "_DOMAIN", kv.2)) := by
    refine foldl_dinsert_keyed (fun x => pyUpperReplace x ++ "_DOMAIN")
      req.domain_names _ hd ?_
    intro p _
    simp only [List.map_cons, List.map_nil, List.mem_singleton]
    exact domain_var_ne_deploy p.1
  have e2 : req.image_urls.foldl
      (fun acc kv => dinsert acc (pyUpperReplace kv.1 ++ "_IMAGE_URL") kv.2)
      ([("DEPLOY_SERVICES", String.intercalate "," (pySorted services_to_deploy))] ++
       req.domain_names.map (fun kv => (pyUpperReplace kv.1 ++ "_DOMAIN", kv.2))) =
      [("DEPLOY_SERVICES", String.intercalate "," (pySorted services_to_deploy))] ++
      req.domain_names.map (fun kv => (pyUpperReplace kv.1 ++ "_DOMAIN", kv.2)) ++
      req.image_urls.map (fun kv => (pyUpperReplace kv.1 ++ "_IMAGE_URL", kv.2)) := by
    refine foldl_dinsert_keyed (fun x => pyUpperReplace x ++ "_IMAGE_URL")
      req.image_urls _ hi ?_
    intro p _
    simp only [List.map_append, List.mem_append, List.map_cons, List.map_nil,
      List.mem_singleton, List.map_map]
    push_neg
    refine ⟨image_var_ne_deploy p.1, ?_⟩
    intro hmem
    simp only [List.mem_map, Function.comp] at hmem
    obtain ⟨q, _, hq⟩ := hmem
    exact image_var_ne_domain_var p.1 q.1 hq.symm
  have e3 : "ENABLE_SCHEMA_VALIDATION" ∉
      ([("DEPLOY_SERVICES", String.intercalate "," (pySorted services_to_deploy))] ++
       req.domain_names.map (fun kv => (pyUpperReplace kv.1 ++ "_DOMAIN", kv.2)) ++
       req.image_urls.map (fun kv => (pyUpperReplace kv.1 ++ "_IMAGE_URL", kv.2))).map
        Prod.fst := by
    simp only [List.map_append, List.mem_append, List.map_cons, List.map_nil,
      List.mem_singleton, List.map_map]
    push_neg
    refine ⟨⟨by decide, ?_⟩, ?_⟩
    · intro hmem
      simp only [List.mem_map, Function.comp] at hmem
      obtain ⟨q, _, hq⟩ := hmem
      exact domain_var_ne_schema q.1 hq
    · intro hmem
      simp only [List.mem_map, Function.comp] at hmem
      obtain ⟨q, _, hq⟩ := hmem
      exact image_var_ne_schema q.1 hq
  have hmain : get_deployment_environment_variables req services_to_deploy =
      [("DEPLOY_SERVICES", String.intercalate "," (pySorted services_to_deploy))] ++
      req.domain_names.map (fun kv => (pyUpperReplace kv.1 ++ "_DOMAIN", kv.2)) ++
      req.image_urls.map (fun kv => (pyUpperReplace kv.1 ++ "_IMAGE_URL", kv.2)) ++
      [("ENABLE_SCHEMA_VALIDATION",
        if (match req.adapter_config with
            | some ac => ac.enable_schema_validation
            | none => false) then "true" else "false")] := by
    simp only [get_deployment_environment_variables]
    rw [hjs, e1, e2, dinsert_not_mem _ e3]
  refine ⟨hmain, ?_⟩
  intro hnone
  rw [hmain, hnone]
  rfl

/-- C6 witness: the amended statement instantiated on the spec's example —
domain names `{"adapter": "a.com"}`, no image urls, no adapter config. -/
theorem env_vars_amended_witness :
    get_deployment_environment_variables ⟨[], [("adapter", "a.com")], [], none⟩
        ["subscriber", "adapter"] =
      [("DEPLOY_SERVICES", "adapter,subscriber"), ("ADAPTER_DOMAIN", "a.com"),
       ("ENABLE_SCHEMA_VALIDATION", "false")] := by
  rw [(env_vars_amended ⟨[], [("adapter", "a.com")], [], none⟩ ["subscriber", "adapter"]
    (by decide) (by decide)).1]
  decide

/-! ## Deployment Orchestrator

`run_infra_deployment` and `run_app_deployment` from
backend/services/deployment_manager.py.  Config generation, the subprocess
exit code and the outputs-artifact read are oracle parameters; each run is
embedded as the ordered list of websocket messages it sends.  Numeric
rendering inside message text uses `toString`. -/

/-- `TERRAFORM_DIRECTORY` (backend/core/constants.py); the concrete absolute
prefix computed from `__file__` is irrelevant to the claims. -/
def TERRAFORM_DIRECTORY : String := "installer_kit/terraform"

/-- `INFRA_SCRIPT_PATH` (backend/core/constants.py). -/
def INFRA_SCRIPT_PATH : String := "installer_kit/installer_scripts/deploy-infra.sh"

/-- `os.path.join(TERRAFORM_DIRECTORY, "outputs.json")`. -/
def outputs_json_path : String := TERRAFORM_DIRECTORY ++ "/outputs.json"

/-- A websocket message, by its `type` (and `action` where the code sets one);
the `data` payload of the app-deploy success message is carried as the
deployed-service list (the url maps it also carries are post-processing
outside the embedded core). -/
inductive WsMsg where
  | info (message : String)
  | log (action : String) (message : String)
  | success (message : String)
  | successData (action : String) (message : String) (services_deployed : List String)
  | warning (message : String)
  | error (message : String)
  | errorAction (action : String) (message : String)
deriving DecidableEq

/-- Outcome of `tf_config.generate_config` / `app_config.generate_app_configs`:
normal return, `FileNotFoundError`, or any other exception. -/
inductive ConfigGenResult where
  | ok
  | fnfError (e : String)
  | otherError (e : String)
deriving DecidableEq

/-- Outcome of launching and awaiting the deployment subprocess: the streamed
output lines and the exit code, a `FileNotFoundError` at launch, or any other
exception. -/
inductive LaunchResult where
  | launched (lines : List String) (exitCode : Int)
  | fnfError (e : String)
  | otherError (e : String)
deriving DecidableEq

/-- Outcome of `json.load(open(outputs_json_path))`: parsed contents
(abstracted as their rendering), `FileNotFoundError`, or `JSONDecodeError`. -/
inductive OutputsRead where
  | ok (data : String)
  | fileNotFound
  | decodeError
deriving DecidableEq

/-- Oracle environment of one `run_infra_deployment` run. -/
structure InfraEnv where
  configGen : ConfigGenResult
  launch : LaunchResult
  outputs : OutputsRead
deriving DecidableEq

/-- The `stream_subprocess_output` messages of the infra flow, as websocket
messages. -/
def infraLogMsgs (lines : List String) : List WsMsg :=
  (streamLines lines "infra_deploy_log").map (fun m => WsMsg.log m.action m.message)

/-- `run_infra_deployment(config, websocket)`: the messages sent, paired with
whether the outputs artifact was read (opened) during the run. -/
def run_infra_deployment (env : InfraEnv) : List WsMsg × Bool :=
  let m1 := WsMsg.info "Generating Terraform configurations..."
  match env.configGen with
  | .fnfError e | .otherError e =>
    ([m1, WsMsg.error ("Failed to generate Terraform configurations: " ++ e)], false)
  | .ok =>
    let m2 := WsMsg.info "Terraform configurations generated successfully."
    let m3 := WsMsg.info "Executing infrastructure deployment script..."
    match env.launch with
    | .fnfError _ =>
      ([m1, m2, m3,
        WsMsg.error ("Infrastructure deployment script not found at: " ++ INFRA_SCRIPT_PATH)],
       false)
    | .otherError e =>
      ([m1, m2, m3,
        WsMsg.error ("An error occurred during infrastructure deployment: " ++ e)],
       false)
    | .launched lines code =>
      let logs := infraLogMsgs lines
      if code = 0 then
        match env.outputs with
        | .ok data => ([m1, m2, m3] ++ logs ++ [WsMsg.success data], true)
        | .fileNotFound =>
          ([m1, m2, m3] ++ logs ++
           [WsMsg.error ("Error: outputs.json not found at " ++ outputs_json_path)], true)
        | .decodeError =>
          ([m1, m2, m3] ++ logs ++
           [WsMsg.error ("Error: Could not decode outputs.json at " ++ outputs_json_path)],
           true)
      else
        ([m1, m2, m3] ++ logs ++
         [WsMsg.error ("Script failed with exit code: " ++ toString code)], false)

/-- Message-type predicates over the embedded websocket messages. -/
def isInfoMsg : WsMsg → Bool
  | .info _ => true
  | _ => false

def isErrorMsg : WsMsg → Bool
  | .error _ => true
  | .errorAction _ _ => true
  | _ => false

def isSuccessMsg : WsMsg → Bool
  | .success _ => true
  | .successData _ _ _ => true
  | _ => false

theorem infraLogMsgs_countP (lines : List String) (p : WsMsg → Bool)
    (hp : ∀ a m, p (WsMsg.log a m) = false) :
    (infraLogMsgs lines).countP p = 0 := by
  rw [List.countP_eq_zero]
  intro x hx
  simp only [infraLogMsgs, List.mem_map] at hx
  obtain ⟨m, _, rfl⟩ := hx
  simp [hp]

/-- Oracle environment: infra config generation succeeds, the infra script
exits with code 1 after no output. -/
def infraEnvExit1 : InfraEnv := ⟨.ok, .launched [] 1, .fileNotFound⟩

/-- C4 counterexample: with config generation succeeding and the infra script
exiting 1, the orchestrator sends three info messages before the single error
(Generating, generated successfully, Executing) — not the two the claim
counts; the repository's own tests assert the same three info messages. -/
theorem infra_exit_one_counterexample :
    (run_infra_deployment infraEnvExit1).1 =
      [WsMsg.info "Generating Terraform configurations...",
       WsMsg.info "Terraform configurations generated successfully.",
       WsMsg.info "Executing infrastructure deployment script...",
       WsMsg.error "Script failed with exit code: 1"] ∧
    (run_infra_deployment infraEnvExit1).1.countP isInfoMsg = 3 := by decide

/-- C4 amended: for every infra deployment run in which config generation
succeeds and the infra script exits with code 1, the orchestrator emits
exactly three info messages, then the streamed log lines, then a single
error message containing "exit code: 1", and the outputs artifact is never
read. -/
theorem infra_exit_one_spec (env : InfraEnv) (lines : List String)
    (hc : env.configGen = .ok) (hl : env.launch = .launched lines 1) :
    (run_infra_deployment env).1 =
      [WsMsg.info "Generating Terraform configurations...",
       WsMsg.info "Terraform configurations generated successfully.",
       WsMsg.info "Executing infrastructure deployment script..."] ++
      infraLogMsgs lines ++ [WsMsg.error "Script failed with exit code: 1"] ∧
    (run_infra_deployment env).1.countP isInfoMsg = 3 ∧
    (run_infra_deployment env).1.countP isErrorMsg = 1 ∧
    List.IsInfix "exit code: 1".toList "Script failed with exit code: 1".toList ∧
    (run_infra_deployment env).2 = false := by
  obtain ⟨cg, la, out⟩ := env
  simp only at hc hl
  subst hc
  subst hl
  have hs : ("Script failed with exit code: " ++ toString (1 : Int)) =
      "Script failed with exit code: 1" := by decide
  have hmsgs : (run_infra_deployment ⟨.ok, .launched lines 1, out⟩).1 =
      [WsMsg.info "Generating Terraform configurations...",
       WsMsg.info "Terraform configurations generated successfully.",
       WsMsg.info "Executing infrastructure deployment script..."] ++
      infraLogMsgs lines ++ [WsMsg.error "Script failed with exit code: 1"] := by
    simp [run_infra_deployment, hs]
  have hlogInfo : (infraLogMsgs lines).countP isInfoMsg = 0 :=
    infraLogMsgs_countP lines _ (fun _ _ => rfl)
  have hlogErr : (infraLogMsgs lines).countP isErrorMsg = 0 :=
    infraLogMsgs_countP lines _ (fun _ _ => rfl)
  refine ⟨hmsgs, ?_, ?_, by decide, ?_⟩
  · rw [hmsgs]
    simp [List.countP_append, List.countP_cons, hlogInfo, isInfoMsg, isErrorMsg]
  · rw [hmsgs]
    simp [List.countP_append, List.countP_cons, hlogErr, isInfoMsg, isErrorMsg]
  · simp [run_infra_deployment]

/-- C4 witness: the amended statement instantiated on a concrete run with exit
code 1 and no streamed output. -/
theorem infra_exit_one_spec_witness :
    (run_infra_deployment infraEnvExit1).1.countP isErrorMsg = 1 ∧
    (run_infra_deployment infraEnvExit1).2 = false :=
  ⟨(infra_exit_one_spec infraEnvExit1 [] rfl rfl).2.2.1,
   (infra_exit_one_spec infraEnvExit1 [] rfl rfl).2.2.2.2⟩

/-- C5: for every infra deployment run in which the script exits 0 but the
outputs artifact is missing or unparseable, the orchestrator emits a distinct
outputs-unreadable error (one of the two fixed outputs messages, which is not
the script-failure message), emits no success message, and the single error
of the run is that outputs error — the script's success is not overturned
into a script failure. -/
theorem infra_outputs_unreadable_spec (env : InfraEnv) (lines : List String)
    (hc : env.configGen = .ok) (hl : env.launch = .launched lines 0)
    (ho : env.outputs = .fileNotFound ∨ env.outputs = .decodeError) :
    (∃ e, (run_infra_deployment env).1 =
        [WsMsg.info "Generating Terraform configurations...",
         WsMsg.info "Terraform configurations generated successfully.",
         WsMsg.info "Executing infrastructure deployment script..."] ++
        infraLogMsgs lines ++ [WsMsg.error e] ∧
        (e = "Error: outputs.json not found at " ++ outputs_json_path ∨
         e = "Error: Could not decode outputs.json at " ++ outputs_json_path) ∧
        ¬ List.IsInfix "Script failed".toList e.toList) ∧
    (run_infra_deployment env).1.countP isSuccessMsg = 0 ∧
    (run_infra_deployment env).1.countP isErrorMsg = 1 := by
  obtain ⟨cg, la, out⟩ := env
  simp only at hc hl ho
  subst hc
  subst hl
  have hlogSucc : (infraLogMsgs lines).countP isSuccessMsg = 0 :=
    infraLogMsgs_countP lines _ (fun _ _ => rfl)
  have hlogErr : (infraLogMsgs lines).countP isErrorMsg = 0 :=
    infraLogMsgs_countP lines _ (fun _ _ => rfl)
  rcases ho with ho | ho <;> subst ho
  · have hmsgs : (run_infra_deployment ⟨.ok, .launched lines 0, .fileNotFound⟩).1 =
        [WsMsg.info "Generating Terraform configurations...",
         WsMsg.info "Terraform configurations generated successfully.",
         WsMsg.info "Executing infrastructure deployment script..."] ++
        infraLogMsgs lines ++
        [WsMsg.error ("Error: outputs.json not found at " ++ outputs_json_path)] := by
      simp [run_infra_deployment]
    refine ⟨⟨_, hmsgs, Or.inl rfl, by decide⟩, ?_, ?_⟩
    · rw [hmsgs]
      simp [List.countP_append, List.countP_cons, hlogSucc, isSuccessMsg, isErrorMsg]
    · rw [hmsgs]
      simp [List.countP_append, List.countP_cons, hlogErr, isSuccessMsg, isErrorMsg]
  · have hmsgs : (run_infra_deployment ⟨.ok, .launched lines 0, .decodeError⟩).1 =
        [WsMsg.info "Generating Terraform configurations...",
         WsMsg.info "Terraform configurations generated successfully.",
         WsMsg.info "Executing infrastructure deployment script..."] ++
        infraLogMsgs lines ++
        [WsMsg.error ("Error: Could not decode outputs.json at " ++ outputs_json_path)] := by
      simp [run_infra_deployment]
    refine ⟨⟨_, hmsgs, Or.inr rfl, by decide⟩, ?_, ?_⟩
    · rw [hmsgs]
      simp [List.countP_append, List.countP_cons, hlogSucc, isSuccessMsg, isErrorMsg]
    · rw [hmsgs]
      simp [List.countP_append, List.countP_cons, hlogErr, isSuccessMsg, isErrorMsg]

/-- C5 witness: the statement instantiated on a concrete run with exit code 0,
one streamed output line and an unparseable outputs artifact. -/
theorem infra_outputs_unreadable_spec_witness :
    (run_infra_deployment ⟨.ok, .launched ["applying"] 0, .decodeError⟩).1.countP
      isSuccessMsg = 0 ∧
    (run_infra_deployment ⟨.ok, .launched ["applying"] 0, .decodeError⟩).1.countP
      isErrorMsg = 1 :=
  ⟨(infra_outputs_unreadable_spec ⟨.ok, .launched ["applying"] 0, .decodeError⟩
      ["applying"] rfl rfl (Or.inr rfl)).2.1,
   (infra_outputs_unreadable_spec ⟨.ok, .launched ["applying"] 0, .decodeError⟩
      ["applying"] rfl rfl (Or.inr rfl)).2.2⟩

/-- Oracle environment of one `run_app_deployment` run. -/
structure AppRunEnv where
  request : AppDeploymentRequest
  configGen : ConfigGenResult
  launch : LaunchResult
deriving DecidableEq

/-- The `stream_subprocess_output` messages of the app flow, as websocket
messages. -/
def appLogMsgs (lines : List String) : List WsMsg :=
  (streamLines lines "app_deploy_log").map (fun m => WsMsg.log m.action m.message)

/-- The message of the `except FileNotFoundError` branch of
`run_app_deployment`. -/
def appConfigErrorMsg (e : String) : String :=
  "Error generating application configs: Required outputs.json not found or script not found: "
  ++ e ++ ". Ensure infrastructure is deployed."

/-- The message of the `except Exception` branch of `run_app_deployment`. -/
def appExceptionMsg (e : String) : String :=
  "An unexpected error occurred during app deployment: " ++ e

/-- `run_app_deployment(app_deployment_request, websocket)`: the messages
sent, paired with the environment-variable overlay passed to the subprocess
(`none` when no subprocess was launched).  The source wraps the whole flow in
one try block, so an exception anywhere in it is dispatched by type:
`FileNotFoundError` → action `app_config_error`, any other exception → action
`app_deploy_exception`.  The success payload's url maps
(`extract_final_urls`, `generate_logs_explorer_urls`) are best-effort
filesystem post-processing outside the embedded core; the success message
carries the deployed-service list. -/
def run_app_deployment (env : AppRunEnv) :
    List WsMsg × Option (List (String × String)) :=
  let m1 := WsMsg.info "Generating application configurations..."
  match env.configGen with
  | .fnfError e =>
    ([m1, WsMsg.errorAction "app_config_error" (appConfigErrorMsg e)], none)
  | .otherError e =>
    ([m1, WsMsg.errorAction "app_deploy_exception" (appExceptionMsg e)], none)
  | .ok =>
    let m2 := WsMsg.info "Application configurations generated successfully."
    let services := _get_services_to_deploy env.request.components
    let env_vars_for_script := get_deployment_environment_variables env.request services
    let m3 := WsMsg.info "Executing application deployment script..."
    match env.launch with
    | .fnfError e =>
      ([m1, m2, m3, WsMsg.errorAction "app_config_error" (appConfigErrorMsg e)], none)
    | .otherError e =>
      ([m1, m2, m3, WsMsg.errorAction "app_deploy_exception" (appExceptionMsg e)], none)
    | .launched lines code =>
      let logs := appLogMsgs lines
      if code = 0 then
        ([m1, m2, m3] ++ logs ++
         [WsMsg.successData "app_deploy_complete" "Application deployment successful!"
           services],
         some env_vars_for_script)
      else
        ([m1, m2, m3] ++ logs ++
         [WsMsg.errorAction "app_deploy_failed"
           ("Application deployment script failed with exit code: " ++ toString code ++
            ". Check logs above for details.")],
         some env_vars_for_script)

/-- C9 counterexample: a `FileNotFoundError` raised while launching the app
deployment subprocess is caught by the `except FileNotFoundError` branch and
reported with action `app_config_error` — the configuration-generation error
category, not the generic app-deploy-exception.  A config-generation
`FileNotFoundError` produces the very same action, so the report is not
distinct from a configuration-generation error. -/
theorem app_launch_fnf_counterexample :
    (run_app_deployment ⟨⟨[], [], [], none⟩, .ok, .fnfError "script"⟩).1 =
      [WsMsg.info "Generating application configurations...",
       WsMsg.info "Application configurations generated successfully.",
       WsMsg.info "Executing application deployment script...",
       WsMsg.errorAction "app_config_error" (appConfigErrorMsg "script")] ∧
    (run_app_deployment ⟨⟨[], [], [], none⟩, .fnfError "outputs.json", .launched [] 0⟩).1 =
      [WsMsg.info "Generating application configurations...",
       WsMsg.errorAction "app_config_error" (appConfigErrorMsg "outputs.json")] := by
  decide

/-- C9 amended: in every app deployment run whose config generation succeeded,
a launch exception other than file-not-found yields the generic
`app_deploy_exception` error, whose action is distinct from both the
non-zero-exit action (`app_deploy_failed`) and the configuration-error action
(`app_config_error`); a file-not-found launch exception is instead reported
with the configuration-error action `app_config_error`. -/
theorem app_launch_exception_spec (env : AppRunEnv) (e : String)
    (hc : env.configGen = .ok) :
    (env.launch = .otherError e →
      (run_app_deployment env).1 =
        [WsMsg.info "Generating application configurations...",
         WsMsg.info "Application configurations generated successfully.",
         WsMsg.info "Executing application deployment script...",
         WsMsg.errorAction "app_deploy_exception" (appExceptionMsg e)]) ∧
    (env.launch = .fnfError e →
      (run_app_deployment env).1 =
        [WsMsg.info "Generating application configurations...",
         WsMsg.info "Application configurations generated successfully.",
         WsMsg.info "Executing application deployment script...",
         WsMsg.errorAction "app_config_error" (appConfigErrorMsg e)]) ∧
    ("app_deploy_exception" : String) ≠ "app_deploy_failed" ∧
    ("app_deploy_exception" : String) ≠ "app_config_error" := by
  obtain ⟨req, cg, la⟩ := env
  simp only at hc
  subst hc
  refine ⟨?_, ?_, by decide, by decide⟩
  · intro hl
    simp only at hl
    subst hl
    simp [run_app_deployment]
  · intro hl
    simp only at hl
    subst hl
    simp [run_app_deployment]

/-- C9 witness: the amended statement instantiated on a concrete run whose
launch raises a non-file-not-found exception. -/
theorem app_launch_exception_spec_witness :
    (run_app_deployment ⟨⟨[], [], [], none⟩, .ok, .otherError "boom"⟩).1 =
      [WsMsg.info "Generating application configurations...",
       WsMsg.info "Application configurations generated successfully.",
       WsMsg.info "Executing application deployment script...",
       WsMsg.errorAction "app_deploy_exception" (appExceptionMsg "boom")] :=
  (app_launch_exception_spec ⟨⟨[], [], [], none⟩, .ok, .otherError "boom"⟩ "boom" rfl).1 rfl

/-! ## Health Poller

`perform_single_health_check` and `run_websocket_health_check` from
backend/services/health_checks.py.  The HTTP probe outcomes and the event-loop
clock are oracle parameters; each run is embedded as the ordered message list
(`none` when the given fuel does not cover the run's attempts).  The float
rendering of Python (`total_timeout_seconds / 60` prints `15.0`) is embedded
as natural-number `toString`. -/

/-- `HealthCheckConstants.HEALTH_CHECK_TIMEOUT_SECONDS = 15 * 60`. -/
def HEALTH_CHECK_TIMEOUT_SECONDS : Nat := 15 * 60

/-- `HealthCheckConstants.HEALTH_CHECK_ATTEMPT_DELAY_SECONDS = 10`. -/
def HEALTH_CHECK_ATTEMPT_DELAY_SECONDS : Nat := 10

/-- A message sent by the health-check module: the plain messages of the
polling loop, and the per-probe message with its `type` severity tag,
service, urls and status code. -/
inductive HMsg where
  | error (message : String)
  | errorAction (action : String) (message : String)
  | info (message : String)
  | warning (message : String)
  | log (message : String)
  | successAction (action : String) (message : String)
  | probe (ptype : String) (service : String) (url : String) (health_url : String)
      (status_code : Option Nat) (message : String)
deriving DecidableEq

/-- Outcome of the single `client.get(health_url)` call: an HTTP response
with a status code, an `httpx.RequestError`, or any other exception. -/
inductive ProbeOutcome where
  | response (status : Nat)
  | requestError (e : String)
  | unexpectedError (e : String)
deriving DecidableEq

/-- Python `base_url.rstrip("/")`. -/
def pyRStripSlash (s : String) : String :=
  String.mk (s.toList.reverse.dropWhile (fun c => c = '/')).reverse

/-- The probed endpoint: `https://{base_url.rstrip("/")}/health`. -/
def healthUrl (base_url : String) : String :=
  "https://" ++ pyRStripSlash base_url ++ "/health"

/-- `perform_single_health_check(service_name, base_url, websocket, client)`:
the returned pass/fail boolean and the message sent.  A response passes iff
its status code is exactly 200 (severity "success"); any other status is a
"warning", a transport error a "warning", an unexpected exception an
"error" — all returning False. -/
def perform_single_health_check (service_name base_url : String)
    (outcome : ProbeOutcome) : Bool × HMsg :=
  let hurl := healthUrl base_url
  match outcome with
  | .response status =>
    if status = 200 then
      (true, .probe "success" service_name base_url hurl (some status)
        ("Health check for " ++ service_name ++ " at " ++ base_url ++ " (endpoint: "
         ++ hurl ++ ") PASSED (HTTP 200)."))
    else
      (false, .probe "warning" service_name base_url hurl (some status)
        ("Health check for " ++ service_name ++ " at " ++ base_url ++ " (endpoint: "
         ++ hurl ++ ") FAILED: HTTP " ++ toString status ++ "."))
  | .requestError e =>
    (false, .probe "warning" service_name base_url hurl none
      ("Health check for " ++ service_name ++ " at " ++ base_url ++ " (endpoint: "
       ++ hurl ++ ") FAILED: Request Error - " ++ e ++ "."))
  | .unexpectedError e =>
    (false, .probe "error" service_name base_url hurl none
      ("An unexpected error occurred during health check for " ++ service_name
       ++ ": " ++ e ++ "."))

/-- The severity tag of a per-probe message. -/
def probeSeverity : HMsg → Option String
  | .probe t _ _ _ _ _ => some t
  | _ => none

/-- C7: a single health probe passes (returns True) iff the HTTP response
status is exactly 200; any other status, any transport-level error and any
unexpected exception return False, and the failing cases differ only in the
severity tag of the emitted probe message (warning, warning, error
respectively) — the function has no retry behavior to differ in. -/
theorem single_health_check_spec (service_name base_url : String)
    (outcome : ProbeOutcome) :
    ((perform_single_health_check service_name base_url outcome).1 = true ↔
      outcome = ProbeOutcome.response 200) ∧
    ((perform_single_health_check service_name base_url outcome).1 = false →
      (probeSeverity (perform_single_health_check service_name base_url outcome).2 =
        some "warning" ∨
       probeSeverity (perform_single_health_check service_name base_url outcome).2 =
        some "error")) := by
  constructor
  · constructor
    · intro h
      match outcome with
      | .response status =>
        by_cases hs : status = 200
        · rw [hs]
        · simp [perform_single_health_check, hs] at h
      | .requestError e => simp [perform_single_health_check] at h
      | .unexpectedError e => simp [perform_single_health_check] at h
    · intro h
      subst h
      rfl
  · intro hfalse
    match outcome with
    | .response status =>
      by_cases hs : status = 200
      · subst hs
        simp [perform_single_health_check] at hfalse
      · left
        simp [perform_single_health_check, probeSeverity, hs]
    | .requestError e => left; rfl
    | .unexpectedError e => right; rfl

/-- C7 witness: the specification instantiated on a concrete passing probe and
the implication discharged on a concrete failing one. -/
theorem single_health_check_spec_witness :
    ((perform_single_health_check "adapter" "a.com" (.response 200)).1 = true ↔
      ProbeOutcome.response 200 = ProbeOutcome.response 200) ∧
    (probeSeverity (perform_single_health_check "adapter" "a.com" (.response 503)).2 =
      some "warning" ∨
     probeSeverity (perform_single_health_check "adapter" "a.com" (.response 503)).2 =
      some "error") :=
  ⟨(single_health_check_spec "adapter" "a.com" (.response 200)).1,
   (single_health_check_spec "adapter" "a.com" (.response 503)).2 (by decide)⟩

/-- The timeout message of the polling loop (the still-pending service names
joined by ", "). -/
def timeoutMsg (elapsed tmo : Nat) (pending : List (String × String)) : String :=
  "Health checks timed out after " ++ toString elapsed ++ " seconds (" ++
  toString (tmo / 60) ++ " minutes). The following service URLs are still unhealthy: " ++
  String.intercalate ", " (pending.map Prod.fst)

/-- The attempt-header message of the polling loop. -/
def attemptMsg (attempt npending elapsed tmo : Nat) : String :=
  "Attempt " ++ toString attempt ++ ": Checking " ++ toString npending ++
  " service URL(s) for health... (" ++ toString elapsed ++ "s elapsed / " ++
  toString tmo ++ "s timeout)"

/-- The all-healthy success message. -/
def allHealthyMsg : String :=
  "All deployed service URLs are now healthy and reachable!"

/-- The still-pending retry message. -/
def retryMsg (npending delay : Nat) : String :=
  toString npending ++ " service URL(s) are not yet healthy. Retrying in " ++
  toString delay ++ " seconds..."

/-- One attempt's concurrently gathered probe results
(`asyncio.gather(*tasks)`), in the iteration order of the pending map. -/
def roundResults (probe : Nat → String → ProbeOutcome) (attempt : Nat)
    (pending : List (String × String)) : List (Bool × HMsg) :=
  pending.map (fun p => perform_single_health_check p.1 p.2 (probe attempt p.1))

/-- `services_that_passed_this_round` plus the `del` loop: after all of the
round's results are collected, the entries whose result is True are removed;
the remaining entries keep their order and their addresses. -/
def removePassed (pending : List (String × String)) (results : List (Bool × HMsg)) :
    List (String × String) :=
  (pending.zip results).filterMap (fun pr => if pr.2.1 then none else some pr.1)

/-- The `while pending_services:` loop of `run_websocket_health_check`, with
`attempt0` the attempt counter before the iteration and `fuel` bounding the
number of iterations the embedding unfolds (`none` = fuel exhausted). -/
def pollLoop (probe : Nat → String → ProbeOutcome) (elapsed : Nat → Nat)
    (tmo dly : Nat) : Nat → Nat → List (String × String) → Option (List HMsg)
  | 0, _, _ => none
  | _ + 1, _, [] => some []
  | fuel + 1, attempt0, p :: ps =>
    let pending := p :: ps
    let attempt := attempt0 + 1
    let e := elapsed attempt
    if tmo < e then
      some [HMsg.errorAction "health_check_timeout" (timeoutMsg e tmo pending)]
    else
      let results := roundResults probe attempt pending
      let probeMsgs := results.map Prod.snd
      let pending2 := removePassed pending results
      let hdr := HMsg.log (attemptMsg attempt pending.length e tmo)
      if pending2 = [] then
        some (hdr :: probeMsgs ++
          [HMsg.successAction "all_services_healthy" allHealthyMsg])
      else
        match pollLoop probe elapsed tmo dly fuel attempt pending2 with
        | none => none
        | some rest =>
          some (hdr :: probeMsgs ++ [HMsg.log (retryMsg pending2.length dly)] ++ rest)

/-- The pending map at the start of attempt `k + 1`, as the loop computes it:
each round removes exactly the entries that passed that round's fully
collected results. -/
def pendingAt (probe : Nat → String → ProbeOutcome) (init : List (String × String)) :
    Nat → List (String × String)
  | 0 => init
  | k + 1 => removePassed (pendingAt probe init k)
      (roundResults probe (k + 1) (pendingAt probe init k))

/-- The `service_urls_to_check` payload: either not a dict of string keys and
string values, or such a dict. -/
inductive Payload where
  | invalid
  | valid (services : List (String × String))
deriving DecidableEq

/-- `run_websocket_health_check(websocket, service_urls_to_check)`: the ordered
message list of the run (`none` when the fuel does not cover the run). -/
def run_websocket_health_check (payload : Payload)
    (probe : Nat → String → ProbeOutcome) (elapsed : Nat → Nat) (fuel : Nat) :
    Option (List HMsg) :=
  match payload with
  | .invalid =>
    some [HMsg.error
      "Invalid payload format. Expected a dictionary of serviceName: serviceUrl strings."]
  | .valid services =>
    let m1 := HMsg.info "Starting health checks for provided service URLs..."
    if services = [] then
      some [m1, HMsg.warning
        "No service URLs provided for health check. Health check skipped."]
    else
      (pollLoop probe elapsed HEALTH_CHECK_TIMEOUT_SECONDS
        HEALTH_CHECK_ATTEMPT_DELAY_SECONDS fuel 0 services).map (fun msgs => m1 :: msgs)

/-- C8 counterexample: on an empty (but well-formed) service map, the first
message sent is the "Starting health checks" info notice and the "skipped"
warning is the second of two messages — not the first and only message; the
repository's tests assert the same two messages in this order. -/
theorem health_empty_payload_counterexample :
    run_websocket_health_check (.valid []) (fun _ _ => .response 200) (fun _ => 0) 1 =
      some [HMsg.info "Starting health checks for provided service URLs...",
            HMsg.warning
              "No service URLs provided for health check. Health check skipped."] ∧
    run_websocket_health_check (.valid []) (fun _ _ => .response 200) (fun _ => 0) 1 ≠
      some [HMsg.warning
              "No service URLs provided for health check. Health check skipped."] := by
  decide

/-- C8 amended: an input that is not a dictionary with string keys and string
values yields a single structured error message and no probing; an empty
dictionary yields exactly two messages — the starting info notice followed by
the "skipped" warning (not an error) — and no probing. -/
theorem health_entry_validation (probe : Nat → String → ProbeOutcome)
    (elapsed : Nat → Nat) (fuel : Nat) :
    run_websocket_health_check .invalid probe elapsed fuel =
      some [HMsg.error
        "Invalid payload format. Expected a dictionary of serviceName: serviceUrl strings."] ∧
    run_websocket_health_check (.valid []) probe elapsed fuel =
      some [HMsg.info "Starting health checks for provided service URLs...",
            HMsg.warning
              "No service URLs provided for health check. Health check skipped."] :=
  ⟨rfl, rfl⟩

/-- C10: throughout the polling loop, the pending map at every attempt is a
sublist of the initial map (entries are only ever removed, never added or
modified: every retained pair is a pair of the initial map, so each pending
name still maps to its original address), and the step from one attempt to
the next removes exactly the entries that passed, computed from the round's
fully collected results — never during the fan-out. -/
theorem pending_submap_invariant (probe : Nat → String → ProbeOutcome)
    (init : List (String × String)) (k : Nat) :
    (pendingAt probe init k).Sublist init ∧
    pendingAt probe init (k + 1) =
      (pendingAt probe init k).filter
        (fun p => !(perform_single_health_check p.1 p.2 (probe (k + 1) p.1)).1) ∧
    ∀ p ∈ pendingAt probe init k, p ∈ init := by
  have hstep : ∀ (attempt : Nat) (pending : List (String × String)),
      removePassed pending (roundResults probe attempt pending) =
        pending.filter
          (fun p => !(perform_single_health_check p.1 p.2 (probe attempt p.1)).1) := by
    intro attempt pending
    induction pending with
    | nil => rfl
    | cons q qs ih =>
      simp only [removePassed, roundResults] at ih
      by_cases hq : (perform_single_health_check q.1 q.2 (probe attempt q.1)).1 = true
      · simp [removePassed, roundResults, List.zip_cons_cons, List.filterMap_cons,
          List.filter_cons, hq, ih]
      · simp [removePassed, roundResults, List.zip_cons_cons, List.filterMap_cons,
          List.filter_cons, hq, ih]
  have hsub : ∀ j, (pendingAt probe init j).Sublist init := by
    intro j
    induction j with
    | zero => exact List.Sublist.refl init
    | succ n ihn =>
      have h1 : pendingAt probe init (n + 1) =
          (pendingAt probe init n).filter
            (fun p => !(perform_single_health_check p.1 p.2 (probe (n + 1) p.1)).1) :=
        hstep (n + 1) (pendingAt probe init n)
      rw [h1]
      exact (List.filter_sublist _).trans ihn
  refine ⟨hsub k, hstep (k + 1) (pendingAt probe init k), ?_⟩
  intro p hp
  exact (hsub k).subset hp

/-- C10 witness: the invariant instantiated on a concrete never-passing run. -/
theorem pending_submap_invariant_witness :
    (pendingAt (fun _ _ => .response 500) [("s", "u")] 3).Sublist [("s", "u")] ∧
    ("s", "u") ∈ [("s", "u")] :=
  ⟨(pending_submap_invariant (fun _ _ => .response 500) [("s", "u")] 3).1,
   (pending_submap_invariant (fun _ _ => .response 500) [("s", "u")] 3).2.2
     ("s", "u") (by decide)⟩

/-- The two terminal messages of a polling run. -/
def isTerminalMsg : HMsg → Bool
  | .errorAction a _ => a == "health_check_timeout"
  | .successAction a _ => a == "all_services_healthy"
  | _ => false

theorem perform_single_not_terminal (n u : String) (o : ProbeOutcome) :
    isTerminalMsg (perform_single_health_check n u o).2 = false := by
  match o with
  | .response status =>
    by_cases hs : status = 200 <;>
      simp [perform_single_health_check, hs, isTerminalMsg]
  | .requestError e => rfl
  | .unexpectedError e => rfl

theorem roundResults_countP_terminal (probe : Nat → String → ProbeOutcome)
    (attempt : Nat) (pending : List (String × String)) :
    ((roundResults probe attempt pending).map Prod.snd).countP isTerminalMsg = 0 := by
  rw [List.countP_eq_zero]
  intro x hx
  simp only [roundResults, List.map_map, List.mem_map, Function.comp] at hx
  obtain ⟨q, _, rfl⟩ := hx
  simp [perform_single_not_terminal]

theorem pollLoop_succ_eq (probe : Nat → String → ProbeOutcome) (elapsed : Nat → Nat)
    (tmo dly n attempt0 : Nat) (p : String × String) (ps : List (String × String)) :
    pollLoop probe elapsed tmo dly (n + 1) attempt0 (p :: ps) =
      if tmo < elapsed (attempt0 + 1) then
        some [HMsg.errorAction "health_check_timeout"
          (timeoutMsg (elapsed (attempt0 + 1)) tmo (p :: ps))]
      else
        if removePassed (p :: ps) (roundResults probe (attempt0 + 1) (p :: ps)) = [] then
          some (HMsg.log (attemptMsg (attempt0 + 1) (p :: ps).length
              (elapsed (attempt0 + 1)) tmo) ::
            (roundResults probe (attempt0 + 1) (p :: ps)).map Prod.snd ++
            [HMsg.successAction "all_services_healthy" allHealthyMsg])
        else
          match pollLoop probe elapsed tmo dly n (attempt0 + 1)
              (removePassed (p :: ps) (roundResults probe (attempt0 + 1) (p :: ps))) with
          | none => none
          | some rest =>
            some (HMsg.log (attemptMsg (attempt0 + 1) (p :: ps).length
                (elapsed (attempt0 + 1)) tmo) ::
              (roundResults probe (attempt0 + 1) (p :: ps)).map Prod.snd ++
              [HMsg.log (retryMsg
                (removePassed (p :: ps) (roundResults probe (attempt0 + 1) (p :: ps))).length
                dly)] ++ rest) := rfl

theorem pollLoop_terminal_aux (probe : Nat → String → ProbeOutcome)
    (elapsed : Nat → Nat) (tmo dly : Nat) (init : List (String × String)) :
    ∀ (fuel j : Nat) (msgs : List HMsg),
      pendingAt probe init j ≠ [] →
      pollLoop probe elapsed tmo dly fuel j (pendingAt probe init j) = some msgs →
      msgs.countP isTerminalMsg = 1 ∧
      ∃ m, msgs.getLast? = some m ∧ isTerminalMsg m = true ∧
        (m = HMsg.successAction "all_services_healthy" allHealthyMsg ∨
         ∃ k, pendingAt probe init k ≠ [] ∧
           m = HMsg.errorAction "health_check_timeout"
                 (timeoutMsg (elapsed (k + 1)) tmo (pendingAt probe init k))) := by
  intro fuel
  induction fuel with
  | zero =>
    intro j msgs hne hrun
    cases hpj : pendingAt probe init j with
    | nil => exact absurd hpj hne
    | cons p ps =>
      rw [hpj] at hrun
      exact absurd hrun (by simp [pollLoop])
  | succ n ih =>
    intro j msgs hne hrun
    cases hpj : pendingAt probe init j with
    | nil => exact absurd hpj hne
    | cons p ps =>
      rw [hpj, pollLoop_succ_eq] at hrun
      by_cases htmo : tmo < elapsed (j + 1)
      · rw [if_pos htmo] at hrun
        obtain rfl := Option.some.inj hrun
        refine ⟨by simp [isTerminalMsg], ?_⟩
        refine ⟨HMsg.errorAction "health_check_timeout"
          (timeoutMsg (elapsed (j + 1)) tmo (p :: ps)), by simp,
          by simp [isTerminalMsg], Or.inr ⟨j, hne, ?_⟩⟩
        rw [hpj]
      · rw [if_neg htmo] at hrun
        have hstep2 : removePassed (p :: ps) (roundResults probe (j + 1) (p :: ps)) =
            pendingAt probe init (j + 1) := by
          simp only [pendingAt, hpj]
        by_cases hp2 : removePassed (p :: ps) (roundResults probe (j + 1) (p :: ps)) = []
        · rw [if_pos hp2] at hrun
          obtain rfl := Option.some.inj hrun
          constructor
          · rw [List.countP_append, List.countP_cons, roundResults_countP_terminal]
            simp [isTerminalMsg, List.countP_cons, List.countP_nil]
          · exact ⟨HMsg.successAction "all_services_healthy" allHealthyMsg,
              List.getLast?_concat _, by simp [isTerminalMsg], Or.inl rfl⟩
        · rw [if_neg hp2] at hrun
          cases hrec : pollLoop probe elapsed tmo dly n (j + 1)
              (removePassed (p :: ps) (roundResults probe (j + 1) (p :: ps))) with
          | none => rw [hrec] at hrun; exact absurd hrun (by simp)
          | some rest =>
            rw [hrec] at hrun
            obtain rfl := Option.some.inj hrun
            have hne2 : pendingAt probe init (j + 1) ≠ [] := by
              rw [← hstep2]; exact hp2
            have hih := ih (j + 1) rest hne2 (by rw [← hstep2]; exact hrec)
            obtain ⟨hcount, m, hlast, hterm, hform⟩ := hih
            constructor
            · rw [List.countP_append, List.countP_append, List.countP_cons,
                roundResults_countP_terminal, hcount]
              simp [isTerminalMsg, List.countP_cons, List.countP_nil]
            · refine ⟨m, ?_, hterm, hform⟩
              rw [List.getLast?_append, hlast]
              rfl

/-- C2: for every run of the health-poller loop over a non-empty pending set
(covered by the given fuel), exactly one terminal message is emitted and it is
the last message of the run — so no probe or attempt follows it.  It is
either the single all-healthy success message (sent when the pending set
became empty after an attempt) or the single timeout error naming exactly the
services still pending at the attempt whose deadline check (performed before
that attempt's probes) found the elapsed time over the limit. -/
theorem poll_loop_terminal_spec (probe : Nat → String → ProbeOutcome)
    (elapsed : Nat → Nat) (tmo dly fuel : Nat) (init : List (String × String))
    (msgs : List HMsg) (hne : init ≠ [])
    (hrun : pollLoop probe elapsed tmo dly fuel 0 init = some msgs) :
    msgs.countP isTerminalMsg = 1 ∧
    ∃ m, msgs.getLast? = some m ∧ isTerminalMsg m = true ∧
      (m = HMsg.successAction "all_services_healthy" allHealthyMsg ∨
       ∃ k, pendingAt probe init k ≠ [] ∧
         m = HMsg.errorAction "health_check_timeout"
               (timeoutMsg (elapsed (k + 1)) tmo (pendingAt probe init k))) :=
  pollLoop_terminal_aux probe elapsed tmo dly init fuel 0 msgs hne hrun

/-- The never-passing probe of the spec's timeout example. -/
def timeoutExampleProbe : Nat → String → ProbeOutcome := fun _ _ => .response 503

/-- A clock advancing 10 seconds between attempts (attempt 1 at 0 seconds). -/
def timeoutExampleClock : Nat → Nat := fun attempt => (attempt - 1) * 10

/-- The messages of the spec's timeout example run: deadline 60 seconds, delay
10 seconds, one service that never passes. -/
def timeoutExampleMsgs : List HMsg :=
  (pollLoop timeoutExampleProbe timeoutExampleClock 60 10 20 0
    [("adapter", "a.com")]).getD []

/-- C2 witness: the theorem instantiated on the spec's timeout scenario
(deadline 60s, delay 10s, a service that never passes). -/
theorem poll_loop_terminal_spec_witness :
    timeoutExampleMsgs.countP isTerminalMsg = 1 :=
  (poll_loop_terminal_spec timeoutExampleProbe timeoutExampleClock 60 10 20
    [("adapter", "a.com")] timeoutExampleMsgs (by decide) (by decide)).1
